import Mathlib

/-!
Shallow embedding of the fetch-validate-extract pipeline of
global_sdr_analysis.py, with theorems settling claims about it.

Modelling conventions:
* file contents are lists of byte values (List Nat);
* paths and other Python strings are lists of characters (List Char);
* the local filesystem is a partial map from paths to contents;
* external collaborators (urllib, hashlib, zipfile) are parameters of
  the embedded functions: a Network gives each URL a transfer outcome,
  a HashLib resolves algorithm names to hexdigest functions, a ZipLib
  gives each archive byte string an extraction outcome;
* Python exceptions become an explicit error type PyErr; effectful
  functions return Except (PyErr × FS) FS, the error carrying the
  filesystem state at the moment the exception escapes.
-/

/-- Byte strings (Python bytes objects) as lists of byte values. -/
abbrev Bytes := List Nat

/-- The local filesystem: a partial map from paths to file contents. -/
abbrev FS := List Char → Option Bytes

/-- Writing (creating or overwriting) one file of the filesystem. -/
def fsWrite (fs : FS) (p : List Char) (data : Bytes) : FS :=
  fun q => if q = p then some data else fs q

/-- Boolean membership of a character in a character list. -/
def hasChar (c : Char) : List Char → Bool
  | [] => false
  | a :: s => a == c || hasChar c s

/-- The character class [0-9a-f] of the embedded-fingerprint regex. -/
def isLowerHexDigit (c : Char) : Bool :=
  (('0' ≤ c && c ≤ '9') || ('a' ≤ c && c ≤ 'f'))

/-- Split a list around the LAST occurrence of the separator: returns
the part strictly before it and the part strictly after it, or none
when the separator does not occur. -/
def splitLast (sep : Char) : List Char → Option (List Char × List Char)
  | [] => none
  | c :: rest =>
    match splitLast sep rest with
    | some (pre, post) => some (c :: pre, post)
    | none => if c = sep then some ([], rest) else none

/-- Matching of the source regex
r\x27.*_([^_]+)_([0-9a-f]+)\.[^_]*$\x27 against a path under Python
re.match semantics (valid_hash, line 183-190 of the source), returning
the two capture groups (algorithm token, digest token) on success.

Hand-compilation of the backtracking search: in any successful match
the extension part [^_]* may hold no underscore and the digest and dot
parts hold none either, so the second group separator is the LAST
underscore of the path; the first group [^_]+ holds no underscore, so
the first separator is the second-to-last underscore; greedy .* is
exactly the part before it and, since Python . does not match a
newline, that part must be newline-free (any earlier choice of the
separators leaves a later underscore inside the digest or extension
part and fails). The digest group [0-9a-f]+ is greedy and a dot is not
a hex digit, so it is exactly the maximal hex run after the last
underscore, and the literal dot must follow it immediately. -/
def hash_re_match (file_path : List Char) : Option (List Char × List Char) :=
  match splitLast '_' file_path with
  | none => none
  | some (pre, tail) =>
    match splitLast '_' pre with
    | none => none
    | some (stem, alg) =>
      if alg = [] then none
      else if hasChar '\n' stem then none
      else
        match tail.takeWhile isLowerHexDigit, tail.dropWhile isLowerHexDigit with
        | [], _ => none
        | _, [] => none
        | hexRun, dotChar :: ext =>
          if dotChar = '.' then
            if hasChar '_' ext then none else some (alg, hexRun)
          else none

/-- The Python exceptions the embedded code can raise.  Constructors
carry the data interpolated into the exception message. -/
inductive PyErr
  /-- IOError raised by valid_hash when the file does not exist
  (NotFoundError of the spec). -/
  | ioError (path : List Char)
  /-- ValueError raised by valid_hash when the path does not carry an
  embedded fingerprint (FormatError of the spec). -/
  | formatError (path : List Char)
  /-- ValueError raised by valid_hash when expected_hash is neither a
  tuple nor the string embedded. -/
  | badExpectedHashArg
  /-- ValueError raised by hashlib.new for an unknown algorithm name
  (UnsupportedAlgorithmError of the spec). -/
  | unsupportedAlgorithm (name : List Char)
  /-- ValueError raised by url_fetch_and_validate on digest mismatch
  (IntegrityError of the spec). -/
  | integrityError (path : List Char)
  /-- Exception escaping from urllib or the output write in url_fetcher
  (TransferError of the spec). -/
  | transferError
  /-- Exception escaping from zipfile during open or extraction
  (ExtractionError of the spec). -/
  | extractionError
deriving DecidableEq

/-- The message text of each embedded exception, as the source formats
it (library-raised transfer and extraction errors carry library text,
modelled as empty). -/
def PyErr.message : PyErr → List Char
  | .ioError p => p ++ (" not found.".data)
  | .formatError p =>
      ("file_path: set([\x27".data) ++ p ++
        ("\x27]) did not end in an [hash_alg]_[hexhash][.ext] format".data)
  | .badExpectedHashArg =>
      ("Invalid value for \x60expected_hash\x60, expecting either a tuple "
        ++ "or \x27embedded\x27: \x7bexpected_hash\x7d").data
  | .unsupportedAlgorithm n => ("unsupported hash type ".data) ++ n
  | .integrityError p => p ++ (" does not match its expected hash".data)
  | .transferError => []
  | .extractionError => []

/-- The hashlib collaborator: resolves an algorithm name to the
function giving the full lowercase hexdigest of a byte string, or none
when the name is unsupported (hashlib.new then raises ValueError). -/
structure HashLib where
  new : List Char → Option (Bytes → List Char)

/-- The byte string fed to the hash object by the read loop of
hash_file: successive chunks of buf_size bytes, concatenated.  A zero
buf_size reproduces Python read(0) returning an empty (falsy) chunk at
once, so nothing is fed. -/
def chunkConcat (b : Nat) (data : Bytes) : Bytes :=
  if h : b = 0 ∨ data = [] then []
  else data.take b ++ chunkConcat b (data.drop b)
termination_by data.length
decreasing_by
  simp_wf
  rcases not_or.mp h with ⟨hb, hd⟩
  exact ⟨List.length_pos.mpr hd, Nat.pos_of_ne_zero hb⟩

/-- Embedding of hash_file (source lines 200-222): resolve the
algorithm with hashlib.new, then open and read the file in buf_size
chunks feeding the hash object, and return the hexdigest truncated to
its first 32 characters. -/
def hash_file (lib : HashLib) (fs : FS) (file_path : List Char)
    (hash_algorithm : List Char) (buf_size : Nat) : Except PyErr (List Char) :=
  match lib.new hash_algorithm with
  | none => .error (.unsupportedAlgorithm hash_algorithm)
  | some hexdigestOf =>
    match fs file_path with
    | none => .error (.ioError file_path)
    | some data => .ok ((hexdigestOf (chunkConcat buf_size data)).take 32)

/-- The expected_hash argument of valid_hash: either a Python tuple
(algorithm, digest) or a plain string. -/
inductive ExpectedHash
  | tuple (alg : List Char) (val : List Char)
  | str (s : List Char)
deriving DecidableEq

/-- The branch of valid_hash (source lines 179-194) resolving the
expected_hash argument into the (hash_algorithm, expected_hash_value)
pair: a tuple is destructured, the string embedded triggers the regex
parse of the path, anything else is a ValueError. -/
def resolveExpected (file_path : List Char) (expected_hash : ExpectedHash) :
    Except PyErr (List Char × List Char) :=
  match expected_hash with
  | .tuple a v => .ok (a, v)
  | .str s =>
    if s = ("embedded".data) then
      match hash_re_match file_path with
      | none => .error (.formatError file_path)
      | some p => .ok p
    else .error .badExpectedHashArg

/-- Embedding of valid_hash (source lines 150-197): existence check,
expected-hash resolution, digest computation (always at the default
buffer size 2 ^ 20 — the buf_size parameter of valid_hash is not
forwarded), and exact string comparison returned as a Bool. -/
def valid_hash (lib : HashLib) (fs : FS) (file_path : List Char)
    (expected_hash : ExpectedHash) (buf_size : Nat) : Except PyErr Bool :=
  if fs file_path = none then .error (.ioError file_path)
  else
    match resolveExpected file_path expected_hash with
    | .error e => .error e
    | .ok (hash_algorithm, expected_hash_value) =>
      match hash_file lib fs file_path hash_algorithm (2 ^ 20) with
      | .error e => .error e
      | .ok actual_hash => .ok (expected_hash_value == actual_hash)

/-- Outcome of one urllib transfer: the full body on success, or a
failure having already streamed some bytes to the output file (none
when the failure occurs before the output file is even opened). -/
inductive TransferOutcome
  | success (body : Bytes)
  | failure (writtenBytes : Option Bytes)
deriving DecidableEq

/-- The urllib collaborator: the outcome of fetching each URL. -/
structure Network where
  fetch : List Char → TransferOutcome

/-- Embedding of url_fetcher (source lines 141-147): stream the URL
body into the file at path, or raise with the partially written state
left behind. -/
def url_fetcher (net : Network) (url : List Char) (path : List Char)
    (fs : FS) : Except (PyErr × FS) FS :=
  match net.fetch url with
  | .success body => .ok (fsWrite fs path body)
  | .failure none => .error (.transferError, fs)
  | .failure (some part) => .error (.transferError, fsWrite fs path part)

/-- Embedding of url_fetch_and_validate (source lines 119-138): fetch,
then validate against the embedded fingerprint, raising ValueError
naming the target path when validation returns false. -/
def url_fetch_and_validate (net : Network) (lib : HashLib)
    (url : List Char) (target_path : List Char) (fs : FS) :
    Except (PyErr × FS) FS :=
  match url_fetcher net url target_path fs with
  | .error e => .error e
  | .ok fs1 =>
    match valid_hash lib fs1 target_path (.str ("embedded".data)) (2 ^ 20) with
    | .error e => .error (e, fs1)
    | .ok true => .ok fs1
    | .ok false => .error (.integrityError target_path, fs1)

/-- Outcome of opening and extracting one archive byte string: the
list of (member name, member bytes) entries on success, or a failure
after having already extracted some entries (failing to open a
malformed archive extracts none). -/
inductive ZipOutcome
  | ok (entries : List (List Char × Bytes))
  | fail (written : List (List Char × Bytes))
deriving DecidableEq

/-- The zipfile collaborator: the extraction outcome of each archive
byte string. -/
structure ZipLib where
  openExtract : Bytes → ZipOutcome

/-- Python posixpath basename: the part after the last slash. -/
def basename (p : List Char) : List Char :=
  match splitLast '/' p with
  | none => p
  | some (_, tail) => tail

/-- Python posixpath dirname: the part before the last slash. -/
def dirname (p : List Char) : List Char :=
  match splitLast '/' p with
  | none => []
  | some (pre, _) => pre

/-- Python posixpath join of two components. -/
def osJoin (a b : List Char) : List Char :=
  if b.head? = some '/' then b
  else if a = [] then b
  else if a.getLast? = some '/' then a ++ b
  else a ++ ('/' :: b)

/-- Writing a list of extracted archive entries into a directory. -/
def writeEntries (dir : List Char) (entries : List (List Char × Bytes))
    (fs : FS) : FS :=
  match entries with
  | [] => fs
  | (name, data) :: rest => writeEntries dir rest (fsWrite fs (osJoin dir name) data)

/-- Embedding of download_validate_and_unzip (source lines 109-116):
fetch and validate into target_dir, extract the archive next to it,
then write the completion token (holding the current timestamp text,
passed here as now). -/
def download_validate_and_unzip (net : Network) (lib : HashLib)
    (zip : ZipLib) (now : Bytes) (url target_dir token_file : List Char)
    (fs : FS) : Except (PyErr × FS) FS :=
  let target_path := osJoin target_dir (basename url)
  match url_fetch_and_validate net lib url target_path fs with
  | .error e => .error e
  | .ok fs1 =>
    match fs1 target_path with
    | none => .error (.ioError target_path, fs1)
    | some bytes =>
      match zip.openExtract bytes with
      | .fail written =>
        .error (.extractionError, writeEntries (dirname target_path) written fs1)
      | .ok entries =>
        .ok (fsWrite (writeEntries (dirname target_path) entries fs1) token_file now)

/-! Concrete fixtures used by the witness theorems. -/

/-- A fixed 32 character hexdigest, the md5 output length. -/
def testMd5 : Bytes → List Char :=
  fun _ => ("0b0b0b0b0b0b0b0b0b0b0b0b0b0b0b0b".data)

/-- A fixed 64 character hexdigest, the sha256 output length. -/
def testSha256 : Bytes → List Char :=
  fun _ => (("0c0c0c0c0c0c0c0c0c0c0c0c0c0c0c0c"
    ++ "0d0d0d0d0d0d0d0d0d0d0d0d0d0d0d0d").data)

/-- A tiny hashlib model supporting md5 and sha256 only. -/
def testHashLib : HashLib :=
  ⟨fun a =>
    if a = ("md5".data) then some testMd5
    else if a = ("sha256".data) then some testSha256
    else none⟩

/-- A filesystem holding a single file. -/
def testFS : FS :=
  fun q => if q = ("f_md5_0b.tif".data) then some [1, 2] else none

/-- A tiny network model: one known URL with a two byte body, every
other URL failing before the output file is opened. -/
def testNet : Network :=
  ⟨fun u => if u = ("http://h/f_md5_0b.tif".data) then .success [1, 2]
    else .failure none⟩

/-- A zipfile model that extracts every archive to an empty entry
list and never fails. -/
def testZip : ZipLib := ⟨fun _ => .ok []⟩

/-! Helper lemmas. -/

theorem fsWrite_self (fs : FS) (p : List Char) (data : Bytes) :
    fsWrite fs p data p = some data := by
  simp [fsWrite]

theorem fsWrite_ne (fs : FS) (p q : List Char) (data : Bytes) (h : q ≠ p) :
    fsWrite fs p data q = fs q := by
  simp [fsWrite, h]

theorem chunkConcat_eq_self_aux (b : Nat) (hb : b ≠ 0) :
    ∀ (n : Nat) (data : Bytes), data.length ≤ n → chunkConcat b data = data := by
  intro n
  induction n with
  | zero =>
    intro data hlen
    have hd : data = [] := List.eq_nil_of_length_eq_zero (Nat.le_zero.mp hlen)
    subst hd
    rw [chunkConcat]
    simp
  | succ n ih =>
    intro data hlen
    rw [chunkConcat]
    by_cases hd : data = []
    · simp [hd]
    · have hcond : ¬(b = 0 ∨ data = []) := by
        push_neg
        exact ⟨hb, hd⟩
      rw [dif_neg hcond]
      have hdrop : (data.drop b).length ≤ n := by
        rw [List.length_drop]
        omega
      rw [ih (data.drop b) hdrop]
      exact List.take_append_drop b data

/-- Feeding a file to the digest in chunks of any positive size feeds
exactly the file. -/
theorem chunkConcat_eq_self (b : Nat) (hb : b ≠ 0) (data : Bytes) :
    chunkConcat b data = data :=
  chunkConcat_eq_self_aux b hb data.length data (le_refl _)

theorem hasChar_append (c : Char) (a b : List Char) :
    hasChar c (a ++ b) = (hasChar c a || hasChar c b) := by
  induction a with
  | nil => simp [hasChar]
  | cons x s ih => simp [hasChar, ih, Bool.or_assoc]

theorem hasChar_eq_false_iff (c : Char) (l : List Char) :
    hasChar c l = false ↔ ∀ x ∈ l, x ≠ c := by
  induction l with
  | nil => simp [hasChar]
  | cons a s ih =>
    simp [hasChar, ih]

theorem splitLast_eq_none_iff (sep : Char) (l : List Char) :
    splitLast sep l = none ↔ hasChar sep l = false := by
  induction l with
  | nil => simp [splitLast, hasChar]
  | cons c rest ih =>
    rw [splitLast, hasChar]
    cases h : splitLast sep rest with
    | some p =>
      simp only [h]
      constructor
      · intro habs
        exact absurd habs (by simp)
      · intro hfalse
        rw [Bool.or_eq_false_iff] at hfalse
        exact absurd (ih.mpr hfalse.2) (by simp [h])
    | none =>
      simp only [h]
      by_cases hc : c = sep
      · simp [hc, if_pos]
      · have : (c == sep) = false := by
          simp [hc]
        simp [if_neg hc, this, ih.mp h]

theorem splitLast_append_last (sep : Char) (s t : List Char)
    (ht : hasChar sep t = false) :
    splitLast sep (s ++ (sep :: t)) = some (s, t) := by
  induction s with
  | nil =>
    rw [List.nil_append, splitLast, (splitLast_eq_none_iff sep t).mpr ht]
    simp
  | cons c s ih =>
    rw [List.cons_append, splitLast, ih]

theorem takeWhile_append_stop (p : Char → Bool) (d : List Char) (x : Char)
    (e : List Char) (hd : ∀ c ∈ d, p c = true) (hx : p x = false) :
    (d ++ (x :: e)).takeWhile p = d ∧ (d ++ (x :: e)).dropWhile p = x :: e := by
  induction d with
  | nil => simp [List.takeWhile, List.dropWhile, hx]
  | cons a s ih =>
    have ha : p a = true := hd a (by simp)
    have hs : ∀ c ∈ s, p c = true := fun c hc => hd c (by simp [hc])
    rcases ih hs with ⟨ih1, ih2⟩
    constructor
    · rw [List.cons_append, List.takeWhile_cons, ha]
      simp [ih1]
    · rw [List.cons_append, List.dropWhile_cons, ha]
      simpa using ih2

theorem isLowerHexDigit_ne_underscore (c : Char) (h : isLowerHexDigit c = true) :
    c ≠ '_' := by
  intro hc
  subst hc
  simp [isLowerHexDigit] at h

/-- Evaluation of hash_file on an existing file and supported
algorithm, at any positive buffer size. -/
theorem hash_file_eval (lib : HashLib) (fs : FS) (file_path : List Char)
    (alg : List Char) (b : Nat) (data : Bytes) (f : Bytes → List Char)
    (hb : b ≠ 0) (hex : fs file_path = some data) (halg : lib.new alg = some f) :
    hash_file lib fs file_path alg b = .ok ((f data).take 32) := by
  simp only [hash_file, halg, hex]
  rw [chunkConcat_eq_self b hb data]

/-! Claim theorems. -/

/-- C7: for every file path absent from the filesystem and every
expected_hash argument, valid_hash fails with the IOError naming the
path.  The conclusion holds for every HashLib and every expected_hash
value (well-formed or not), so the failure precedes fingerprint
parsing, algorithm resolution and digest computation. -/
theorem C7_missing_file_precedence (lib : HashLib) (fs : FS)
    (file_path : List Char) (expected_hash : ExpectedHash) (buf_size : Nat)
    (h : fs file_path = none) :
    valid_hash lib fs file_path expected_hash buf_size
      = .error (.ioError file_path) := by
  rw [valid_hash, if_pos h]

/-- C7 witness at a concrete missing file. -/
theorem C7_missing_file_precedence_witness :
    testFS ("absent.tif".data) = none ∧
    valid_hash testHashLib testFS ("absent.tif".data)
      (.str ("x".data)) 7 = .error (.ioError ("absent.tif".data)) :=
  ⟨by decide, C7_missing_file_precedence testHashLib testFS ("absent.tif".data)
    (.str ("x".data)) 7 (by decide)⟩

/-- C5: for every existing file whose path does not match the
embedded-fingerprint regex, valid_hash in embedded mode fails with the
ValueError (FormatError) carrying the offending path, whose message
spells the path out; the conclusion holds for every HashLib, so no
digest computation can be involved.  A path that is absent from the
filesystem is governed instead by the precedence of C7. -/
theorem C5_parse_rejection (lib : HashLib) (fs : FS) (file_path : List Char)
    (buf_size : Nat) (hex : fs file_path ≠ none)
    (hnomatch : hash_re_match file_path = none) :
    valid_hash lib fs file_path (.str ("embedded".data)) buf_size
      = .error (.formatError file_path) ∧
    ∃ t u, (PyErr.formatError file_path).message = (t ++ file_path) ++ u := by
  constructor
  · rw [valid_hash, if_neg hex]
    simp [resolveExpected, hnomatch]
  · exact ⟨_, _, rfl⟩

/-- C5 witness: an existing file whose name has no fingerprint. -/
theorem C5_parse_rejection_witness :
    ((fun q => if q = ("plain.tif".data) then some [3] else none) : FS)
        ("plain.tif".data) ≠ none ∧
    hash_re_match ("plain.tif".data) = none ∧
    (valid_hash testHashLib
        (fun q => if q = ("plain.tif".data) then some [3] else none)
        ("plain.tif".data) (.str ("embedded".data)) 7
      = .error (.formatError ("plain.tif".data)) ∧
    ∃ t u, (PyErr.formatError ("plain.tif".data)).message
      = (t ++ ("plain.tif".data)) ++ u) :=
  ⟨by decide, by decide, C5_parse_rejection testHashLib
    (fun q => if q = ("plain.tif".data) then some [3] else none)
    ("plain.tif".data) 7 (by decide) (by decide)⟩

/-- C8: for an existing file whose resolved algorithm name (from an
explicit tuple or from the embedded fingerprint) is not in the hashlib
registry, valid_hash fails with the error hashlib.new raises, and the
same failure arises whatever content the file holds, so no file bytes
contribute to the outcome. -/
theorem C8_unsupported_algorithm (lib : HashLib) (fs : FS)
    (file_path : List Char) (data : Bytes) (expected_hash : ExpectedHash)
    (alg val : List Char) (buf_size : Nat)
    (hex : fs file_path = some data)
    (hres : expected_hash = .tuple alg val ∨
      (expected_hash = .str ("embedded".data) ∧
        hash_re_match file_path = some (alg, val)))
    (halg : lib.new alg = none) :
    valid_hash lib fs file_path expected_hash buf_size
      = .error (.unsupportedAlgorithm alg) ∧
    ∀ data2 : Bytes,
      valid_hash lib (fsWrite fs file_path data2) file_path expected_hash buf_size
        = .error (.unsupportedAlgorithm alg) := by
  have key : ∀ (fs2 : FS) (d : Bytes), fs2 file_path = some d →
      valid_hash lib fs2 file_path expected_hash buf_size
        = .error (.unsupportedAlgorithm alg) := by
    intro fs2 d hd
    rw [valid_hash, if_neg (by simp [hd])]
    have hresolve : resolveExpected file_path expected_hash = .ok (alg, val) := by
      rcases hres with h1 | ⟨h1, h2⟩
      · rw [h1, resolveExpected]
      · rw [h1]
        simp [resolveExpected, h2]
    simp [hresolve, hash_file, halg]
  exact ⟨key fs data hex,
    fun data2 => key _ data2 (fsWrite_self fs file_path data2)⟩

/-- C8 witness: an embedded fingerprint naming the unsupported
algorithm crc7. -/
theorem C8_unsupported_algorithm_witness :
    ((fun q => if q = ("f_crc7_0b.tif".data) then some [3] else none) : FS)
        ("f_crc7_0b.tif".data) = some [3] ∧
    ((ExpectedHash.str ("embedded".data)) = .tuple ("crc7".data) ("0b".data) ∨
      ((ExpectedHash.str ("embedded".data)) = .str ("embedded".data) ∧
        hash_re_match ("f_crc7_0b.tif".data)
          = some (("crc7".data), ("0b".data)))) ∧
    testHashLib.new ("crc7".data) = none ∧
    (valid_hash testHashLib
        (fun q => if q = ("f_crc7_0b.tif".data) then some [3] else none)
        ("f_crc7_0b.tif".data) (.str ("embedded".data)) 7
      = .error (.unsupportedAlgorithm ("crc7".data)) ∧
    ∀ data2 : Bytes,
      valid_hash testHashLib
          (fsWrite (fun q => if q = ("f_crc7_0b.tif".data) then some [3] else none)
            ("f_crc7_0b.tif".data) data2)
          ("f_crc7_0b.tif".data) (.str ("embedded".data)) 7
        = .error (.unsupportedAlgorithm ("crc7".data))) :=
  ⟨by decide, by decide, rfl,
    C8_unsupported_algorithm testHashLib
      (fun q => if q = ("f_crc7_0b.tif".data) then some [3] else none)
      ("f_crc7_0b.tif".data) [3] (.str ("embedded".data))
      ("crc7".data) ("0b".data) 7 (by decide) (by decide) rfl⟩

/-- C2: for every existing file and registered algorithm, hash_file
returns the first 32 characters of the hexdigest the algorithm gives
for the file bytes, whatever the native digest length: the whole
digest when that length is at most 32 (md5), and a strict prefix when
it is longer (sha256 and the rest of the sha family). -/
theorem C2_digest_truncated_to_32 (lib : HashLib) (fs : FS)
    (file_path alg : List Char) (b : Nat) (data : Bytes)
    (f : Bytes → List Char) (hb : b ≠ 0)
    (hex : fs file_path = some data) (halg : lib.new alg = some f) :
    hash_file lib fs file_path alg b = .ok ((f data).take 32) ∧
    ((f data).length ≤ 32 → hash_file lib fs file_path alg b = .ok (f data)) ∧
    (32 < (f data).length →
      ∃ t, t ≠ [] ∧ ((f data).take 32) ++ t = f data) := by
  have h := hash_file_eval lib fs file_path alg b data f hb hex halg
  refine ⟨h, ?_, ?_⟩
  · intro hle
    rw [h, List.take_of_length_le hle]
  · intro hlt
    refine ⟨(f data).drop 32, ?_, List.take_append_drop 32 (f data)⟩
    intro habs
    have hlen := congrArg List.length habs
    rw [List.length_drop] at hlen
    simp at hlen
    omega

/-- C2 witness: a two byte file hashed under the md5 and sha256 models
of the fixture hashlib. -/
theorem C2_digest_truncated_to_32_witness :
    (7 : Nat) ≠ 0 ∧
    testFS ("f_md5_0b.tif".data) = some [1, 2] ∧
    testHashLib.new ("sha256".data) = some testSha256 ∧
    (hash_file testHashLib testFS ("f_md5_0b.tif".data) ("sha256".data) 7
        = .ok ((testSha256 [1, 2]).take 32) ∧
    ((testSha256 [1, 2]).length ≤ 32 →
      hash_file testHashLib testFS ("f_md5_0b.tif".data) ("sha256".data) 7
        = .ok (testSha256 [1, 2])) ∧
    (32 < (testSha256 [1, 2]).length →
      ∃ t, t ≠ [] ∧ ((testSha256 [1, 2]).take 32) ++ t = testSha256 [1, 2])) :=
  ⟨by decide, by decide, rfl,
    C2_digest_truncated_to_32 testHashLib testFS ("f_md5_0b.tif".data)
      ("sha256".data) 7 [1, 2] testSha256 (by decide) (by decide) rfl⟩

/-- C9: hash_file gives the same digest at any two positive buffer
sizes, and the buf_size parameter of valid_hash is dead: valid_hash is
the same function at any two buffer sizes whatsoever, because the
source never forwards it to hash_file. -/
theorem C9_buffer_size_independence (lib : HashLib) (fs : FS)
    (file_path alg : List Char) (b1 b2 : Nat) (h1 : b1 ≠ 0) (h2 : b2 ≠ 0) :
    hash_file lib fs file_path alg b1 = hash_file lib fs file_path alg b2 ∧
    ∀ (expected_hash : ExpectedHash) (c1 c2 : Nat),
      valid_hash lib fs file_path expected_hash c1
        = valid_hash lib fs file_path expected_hash c2 := by
  constructor
  · simp only [hash_file]
    cases lib.new alg with
    | none => rfl
    | some f =>
      cases fs file_path with
      | none => rfl
      | some data =>
        simp [chunkConcat_eq_self b1 h1, chunkConcat_eq_self b2 h2]
  · intro e c1 c2
    rfl

/-- C9 witness at buffer sizes 1 and 3. -/
theorem C9_buffer_size_independence_witness :
    (1 : Nat) ≠ 0 ∧ (3 : Nat) ≠ 0 ∧
    (hash_file testHashLib testFS ("f_md5_0b.tif".data) ("md5".data) 1
        = hash_file testHashLib testFS ("f_md5_0b.tif".data) ("md5".data) 3 ∧
    ∀ (expected_hash : ExpectedHash) (c1 c2 : Nat),
      valid_hash testHashLib testFS ("f_md5_0b.tif".data) expected_hash c1
        = valid_hash testHashLib testFS ("f_md5_0b.tif".data) expected_hash c2) :=
  ⟨by decide, by decide,
    C9_buffer_size_independence testHashLib testFS ("f_md5_0b.tif".data)
      ("md5".data) 1 3 (by decide) (by decide)⟩

/-- C4 counterexample: with stem a bare newline character, algorithm
token a, digest token 0 and empty extension, all side conditions of
the claim hold, yet parsing the assembled path yields no fingerprint
at all (Python . does not match a newline, so greedy .* cannot cover
the stem), rather than the claimed pair (a, 0). -/
theorem C4_newline_stem_counterexample :
    (("a".data) ≠ [] ∧ hasChar '_' ("a".data) = false ∧
      ("0".data) ≠ [] ∧ (∀ c ∈ ("0".data), isLowerHexDigit c = true) ∧
      hasChar '_' ([] : List Char) = false) ∧
    hash_re_match (("\n".data) ++ ('_' :: (("a".data) ++
        ('_' :: (("0".data) ++ ('.' :: ([] : List Char)))))))
      ≠ some (("a".data), ("0".data)) := by
  decide

/-- C4 (amended): for every newline-free stem S — underscores allowed —
every nonempty underscore-free algorithm token A, every nonempty token
D of characters [0-9a-f] and every underscore-free extension E, parsing
the path S_A_D.E yields exactly the pair (A, D), both tokens verbatim. -/
theorem C4_fingerprint_roundtrip (S A D E : List Char)
    (hS : hasChar '\n' S = false)
    (hA1 : A ≠ []) (hA2 : hasChar '_' A = false)
    (hD1 : D ≠ []) (hD2 : ∀ c ∈ D, isLowerHexDigit c = true)
    (hE : hasChar '_' E = false) :
    hash_re_match (S ++ ('_' :: (A ++ ('_' :: (D ++ ('.' :: E))))))
      = some (A, D) := by
  obtain ⟨d0, dr, rfl⟩ : ∃ d0 dr, D = d0 :: dr := by
    cases D with
    | nil => exact absurd rfl hD1
    | cons d0 dr => exact ⟨d0, dr, rfl⟩
  have hE2 := (hasChar_eq_false_iff '_' E).mp hE
  have htail : hasChar '_' ((d0 :: dr) ++ ('.' :: E)) = false := by
    rw [hasChar_eq_false_iff]
    intro x hx
    rcases List.mem_append.mp hx with hx1 | hx2
    · exact isLowerHexDigit_ne_underscore x (hD2 x hx1)
    · rcases List.mem_cons.mp hx2 with rfl | hx4
      · decide
      · exact hE2 x hx4
  have h1 : splitLast '_' (S ++ ('_' :: (A ++ ('_' :: ((d0 :: dr) ++ ('.' :: E))))))
      = some (S ++ ('_' :: A), (d0 :: dr) ++ ('.' :: E)) := by
    have heq : S ++ ('_' :: (A ++ ('_' :: ((d0 :: dr) ++ ('.' :: E)))))
        = (S ++ ('_' :: A)) ++ ('_' :: ((d0 :: dr) ++ ('.' :: E))) := by
      simp
    rw [heq]
    exact splitLast_append_last '_' _ _ htail
  have h2 : splitLast '_' (S ++ ('_' :: A)) = some (S, A) :=
    splitLast_append_last '_' S A hA2
  rcases takeWhile_append_stop isLowerHexDigit (d0 :: dr) '.' E hD2 (by decide)
    with ⟨ht, hd⟩
  simp only [hash_re_match, h1, h2, ht, hd]
  rw [if_neg hA1, if_neg (by simp [hS])]
  simp [hE]

/-- C4 witness: the round trip at a concrete stem, algorithm, digest
and extension. -/
theorem C4_fingerprint_roundtrip_witness :
    (hasChar '\n' ("stem".data) = false ∧
      ("md5".data) ≠ [] ∧ hasChar '_' ("md5".data) = false ∧
      ("0f".data) ≠ [] ∧ (∀ c ∈ ("0f".data), isLowerHexDigit c = true) ∧
      hasChar '_' ("tif".data) = false) ∧
    hash_re_match (("stem".data) ++ ('_' :: (("md5".data) ++
        ('_' :: (("0f".data) ++ ('.' :: ("tif".data)))))))
      = some (("md5".data), ("0f".data)) :=
  ⟨⟨by decide, by decide, by decide, by decide, by decide, by decide⟩,
    C4_fingerprint_roundtrip ("stem".data) ("md5".data) ("0f".data) ("tif".data)
      (by decide) (by decide) (by decide) (by decide) (by decide) (by decide)⟩

/-- C1: for a URL whose transfer succeeds and a destination path whose
filename encodes a fingerprint with a registered algorithm,
url_fetch_and_validate succeeds exactly when the digest of the
transferred bytes under that algorithm (as the digest engine reports
it, i.e. its hexdigest truncated to 32 characters) is string-equal to
the parsed expected digest; on mismatch it fails with the ValueError
(IntegrityError) naming the destination path, whose message starts
with that path, and the downloaded file stays in place. -/
theorem C1_verification_gate (net : Network) (lib : HashLib)
    (url target_path : List Char) (body : Bytes) (alg val : List Char)
    (f : Bytes → List Char) (fs : FS)
    (hfetch : net.fetch url = .success body)
    (hparse : hash_re_match target_path = some (alg, val))
    (halg : lib.new alg = some f) :
    (url_fetch_and_validate net lib url target_path fs
        = .ok (fsWrite fs target_path body) ↔ val = (f body).take 32) ∧
    (val ≠ (f body).take 32 →
      url_fetch_and_validate net lib url target_path fs
        = .error (.integrityError target_path, fsWrite fs target_path body)) ∧
    (∃ t, (PyErr.integrityError target_path).message = target_path ++ t) := by
  have hf : url_fetcher net url target_path fs
      = .ok (fsWrite fs target_path body) := by
    rw [url_fetcher, hfetch]
  have hvh : valid_hash lib (fsWrite fs target_path body) target_path
      (.str ("embedded".data)) (2 ^ 20)
      = .ok (val == (f body).take 32) := by
    rw [valid_hash, if_neg (by simp [fsWrite_self])]
    have hres : resolveExpected target_path (.str ("embedded".data))
        = .ok (alg, val) := by
      simp [resolveExpected, hparse]
    simp only [hres, hash_file_eval lib _ target_path alg (2 ^ 20) body f
      (by norm_num) (fsWrite_self fs target_path body) halg]
  refine ⟨⟨?_, ?_⟩, ?_, ⟨_, rfl⟩⟩
  · intro hok
    by_contra hne
    have hbeq : (val == (f body).take 32) = false := by simp [hne]
    simp only [url_fetch_and_validate, hf, hvh, hbeq] at hok
    exact Except.noConfusion hok
  · intro heq
    have hbeq : (val == (f body).take 32) = true := by simp [heq]
    simp only [url_fetch_and_validate, hf, hvh, hbeq]
  · intro hne
    have hbeq : (val == (f body).take 32) = false := by simp [hne]
    simp only [url_fetch_and_validate, hf, hvh, hbeq]

/-- C1 witness: the fetched body hashes (under the md5 model) to a
32 character digest whose first 32 characters differ from the parsed
expected token 0b, so the mismatch branch of the gate is exercised. -/
theorem C1_verification_gate_witness :
    testNet.fetch ("http://h/f_md5_0b.tif".data) = .success [1, 2] ∧
    hash_re_match ("f_md5_0b.tif".data) = some (("md5".data), ("0b".data)) ∧
    testHashLib.new ("md5".data) = some testMd5 ∧
    ((url_fetch_and_validate testNet testHashLib
        ("http://h/f_md5_0b.tif".data) ("f_md5_0b.tif".data) (fun _ => none)
        = .ok (fsWrite (fun _ => none) ("f_md5_0b.tif".data) [1, 2]) ↔
      ("0b".data) = (testMd5 [1, 2]).take 32) ∧
    (("0b".data) ≠ (testMd5 [1, 2]).take 32 →
      url_fetch_and_validate testNet testHashLib
        ("http://h/f_md5_0b.tif".data) ("f_md5_0b.tif".data) (fun _ => none)
        = .error (.integrityError ("f_md5_0b.tif".data),
            fsWrite (fun _ => none) ("f_md5_0b.tif".data) [1, 2])) ∧
    (∃ t, (PyErr.integrityError ("f_md5_0b.tif".data)).message
      = ("f_md5_0b.tif".data) ++ t)) :=
  ⟨by decide, by decide, rfl,
    C1_verification_gate testNet testHashLib ("http://h/f_md5_0b.tif".data)
      ("f_md5_0b.tif".data) [1, 2] ("md5".data) ("0b".data) testMd5
      (fun _ => none) (by decide) (by decide) rfl⟩

/-- C6: when the transfer of the URL fails, url_fetch_and_validate
propagates exactly the transfer exception with the state url_fetcher
left behind; the outcome is the same for every HashLib, so no digest
is computed, and the error is not an IntegrityError. -/
theorem C6_transfer_short_circuit (net : Network) (lib : HashLib)
    (url target_path : List Char) (fs : FS) (wb : Option Bytes)
    (hfail : net.fetch url = .failure wb) :
    ∃ fsE : FS,
      url_fetcher net url target_path fs = .error (.transferError, fsE) ∧
      url_fetch_and_validate net lib url target_path fs
        = .error (.transferError, fsE) ∧
      (∀ lib2 : HashLib,
        url_fetch_and_validate net lib2 url target_path fs
          = .error (.transferError, fsE)) ∧
      (∀ q : List Char, (PyErr.transferError : PyErr) ≠ .integrityError q) := by
  rcases wb with _ | part
  · refine ⟨fs, ?_, ?_, fun lib2 => ?_, fun q h => PyErr.noConfusion h⟩
    · rw [url_fetcher, hfail]
    · simp only [url_fetch_and_validate, url_fetcher, hfail]
    · simp only [url_fetch_and_validate, url_fetcher, hfail]
  · refine ⟨fsWrite fs target_path part, ?_, ?_, fun lib2 => ?_,
      fun q h => PyErr.noConfusion h⟩
    · rw [url_fetcher, hfail]
    · simp only [url_fetch_and_validate, url_fetcher, hfail]
    · simp only [url_fetch_and_validate, url_fetcher, hfail]

/-- C6 witness at a URL the fixture network refuses. -/
theorem C6_transfer_short_circuit_witness :
    testNet.fetch ("http://h/other.zip".data) = .failure none ∧
    ∃ fsE : FS,
      url_fetcher testNet ("http://h/other.zip".data) ("other.zip".data)
          (fun _ => none) = .error (.transferError, fsE) ∧
      url_fetch_and_validate testNet testHashLib ("http://h/other.zip".data)
          ("other.zip".data) (fun _ => none) = .error (.transferError, fsE) ∧
      (∀ lib2 : HashLib,
        url_fetch_and_validate testNet lib2 ("http://h/other.zip".data)
          ("other.zip".data) (fun _ => none) = .error (.transferError, fsE)) ∧
      (∀ q : List Char, (PyErr.transferError : PyErr) ≠ .integrityError q) :=
  ⟨by decide,
    C6_transfer_short_circuit testNet testHashLib ("http://h/other.zip".data)
      ("other.zip".data) (fun _ => none) none (by decide)⟩

/-- C10: at the valid_hash layer a digest mismatch on an existing,
resolvable file is the value false, not an exception; the matching
IntegrityError arises only in the caller url_fetch_and_validate. -/
theorem C10_mismatch_returns_false (lib : HashLib) (fs : FS)
    (file_path : List Char) (data : Bytes) (expected_hash : ExpectedHash)
    (alg val : List Char) (f : Bytes → List Char) (buf_size : Nat)
    (hex : fs file_path = some data)
    (hres : expected_hash = .tuple alg val ∨
      (expected_hash = .str ("embedded".data) ∧
        hash_re_match file_path = some (alg, val)))
    (halg : lib.new alg = some f)
    (hmis : val ≠ (f data).take 32) :
    valid_hash lib fs file_path expected_hash buf_size = .ok false ∧
    (∀ (net : Network) (url : List Char) (fs0 : FS) (body : Bytes),
      net.fetch url = .success body →
      hash_re_match file_path = some (alg, val) →
      val ≠ (f body).take 32 →
      url_fetch_and_validate net lib url file_path fs0
        = .error (.integrityError file_path, fsWrite fs0 file_path body)) := by
  constructor
  · rw [valid_hash, if_neg (by simp [hex])]
    have hresolve : resolveExpected file_path expected_hash = .ok (alg, val) := by
      rcases hres with h1 | ⟨h1, h2⟩
      · rw [h1, resolveExpected]
      · rw [h1]
        simp [resolveExpected, h2]
    have hbeq : (val == (f data).take 32) = false := by simp [hmis]
    simp only [hresolve,
      hash_file_eval lib fs file_path alg (2 ^ 20) data f (by norm_num) hex halg,
      hbeq]
  · intro net url fs0 body hfetch hparse hne
    have hf : url_fetcher net url file_path fs0
        = .ok (fsWrite fs0 file_path body) := by
      rw [url_fetcher, hfetch]
    have hresolve : resolveExpected file_path (.str ("embedded".data))
        = .ok (alg, val) := by
      simp [resolveExpected, hparse]
    have hvh : valid_hash lib (fsWrite fs0 file_path body) file_path
        (.str ("embedded".data)) (2 ^ 20) = .ok (val == (f body).take 32) := by
      rw [valid_hash, if_neg (by simp [fsWrite_self])]
      simp only [hresolve, hash_file_eval lib _ file_path alg (2 ^ 20) body f
        (by norm_num) (fsWrite_self fs0 file_path body) halg]
    have hbeq : (val == (f body).take 32) = false := by simp [hne]
    simp only [url_fetch_and_validate, hf, hvh, hbeq]

/-- C10 witness: the fixture file exists, parses to (md5, 0b), and its
md5-model digest differs from 0b, so valid_hash returns ok false. -/
theorem C10_mismatch_returns_false_witness :
    testFS ("f_md5_0b.tif".data) = some [1, 2] ∧
    ((ExpectedHash.str ("embedded".data)) = .tuple ("md5".data) ("0b".data) ∨
      ((ExpectedHash.str ("embedded".data)) = .str ("embedded".data) ∧
        hash_re_match ("f_md5_0b.tif".data)
          = some (("md5".data), ("0b".data)))) ∧
    testHashLib.new ("md5".data) = some testMd5 ∧
    ("0b".data) ≠ (testMd5 [1, 2]).take 32 ∧
    (valid_hash testHashLib testFS ("f_md5_0b.tif".data)
        (.str ("embedded".data)) 7 = .ok false ∧
    (∀ (net : Network) (url : List Char) (fs0 : FS) (body : Bytes),
      net.fetch url = .success body →
      hash_re_match ("f_md5_0b.tif".data) = some (("md5".data), ("0b".data)) →
      ("0b".data) ≠ (testMd5 body).take 32 →
      url_fetch_and_validate net testHashLib url ("f_md5_0b.tif".data) fs0
        = .error (.integrityError ("f_md5_0b.tif".data),
            fsWrite fs0 ("f_md5_0b.tif".data) body))) :=
  ⟨by decide, by decide, rfl, by decide,
    C10_mismatch_returns_false testHashLib testFS ("f_md5_0b.tif".data) [1, 2]
      (.str ("embedded".data)) ("md5".data) ("0b".data) testMd5 7
      (by decide) (by decide) rfl (by decide)⟩

theorem url_fetch_and_validate_ok_state (net : Network) (lib : HashLib)
    (url path : List Char) (fs : FS) (fs1 : FS)
    (h : url_fetch_and_validate net lib url path fs = .ok fs1) :
    ∃ body, net.fetch url = .success body ∧ fs1 = fsWrite fs path body := by
  cases hn : net.fetch url with
  | success body =>
    simp only [url_fetch_and_validate, url_fetcher, hn] at h
    refine ⟨body, rfl, ?_⟩
    cases hv : valid_hash lib (fsWrite fs path body) path
        (.str ("embedded".data)) (2 ^ 20) with
    | error e =>
      simp only [hv] at h
      exact Except.noConfusion h
    | ok bb =>
      cases bb
      · simp only [hv] at h
        exact Except.noConfusion h
      · simp only [hv, Except.ok.injEq] at h
        exact h.symm
  | failure wb =>
    cases wb with
    | none =>
      simp only [url_fetch_and_validate, url_fetcher, hn] at h
      exact Except.noConfusion h
    | some part =>
      simp only [url_fetch_and_validate, url_fetcher, hn] at h
      exact Except.noConfusion h

theorem url_fetch_and_validate_error_state (net : Network) (lib : HashLib)
    (url path : List Char) (fs : FS) (e : PyErr) (fsE : FS)
    (h : url_fetch_and_validate net lib url path fs = .error (e, fsE)) :
    fsE = fs ∨ ∃ body, fsE = fsWrite fs path body := by
  cases hn : net.fetch url with
  | success body =>
    simp only [url_fetch_and_validate, url_fetcher, hn] at h
    right
    refine ⟨body, ?_⟩
    cases hv : valid_hash lib (fsWrite fs path body) path
        (.str ("embedded".data)) (2 ^ 20) with
    | error e2 =>
      simp only [hv, Except.error.injEq, Prod.mk.injEq] at h
      exact h.2.symm
    | ok bb =>
      cases bb
      · simp only [hv, Except.error.injEq, Prod.mk.injEq] at h
        exact h.2.symm
      · simp only [hv] at h
        exact Except.noConfusion h
  | failure wb =>
    cases wb with
    | none =>
      simp only [url_fetch_and_validate, url_fetcher, hn,
        Except.error.injEq, Prod.mk.injEq] at h
      exact Or.inl h.2.symm
    | some part =>
      simp only [url_fetch_and_validate, url_fetcher, hn,
        Except.error.injEq, Prod.mk.injEq] at h
      exact Or.inr ⟨part, h.2.symm⟩

theorem writeEntries_untouched (dir : List Char)
    (entries : List (List Char × Bytes)) (fs : FS) (q : List Char)
    (h : ∀ nm d, (nm, d) ∈ entries → osJoin dir nm ≠ q) :
    writeEntries dir entries fs q = fs q := by
  induction entries generalizing fs with
  | nil => rfl
  | cons ent rest ih =>
    obtain ⟨name, data⟩ := ent
    rw [writeEntries]
    rw [ih _ (fun nm d hm => h nm d (by simp [hm]))]
    exact fsWrite_ne fs (osJoin dir name) q data
      (Ne.symm (h name data (by simp)))

/-- C3: download_validate_and_unzip propagates any exception of the
embedded fetch-and-validate unchanged, and whenever it fails — in the
fetch, validation or extraction step — the completion token file is
still absent afterwards, because the token write is the final step.
Side conditions make the absence expressible over filesystem states:
the token path is initially absent, differs from the download target
path, and is not among the paths a failing extraction writes. -/
theorem C3_token_write_is_last (net : Network) (lib : HashLib) (zip : ZipLib)
    (now : Bytes) (url target_dir token_file : List Char) (fs : FS)
    (h0 : fs token_file = none)
    (hne : osJoin target_dir (basename url) ≠ token_file)
    (hzip : ∀ (bytes : Bytes) (written : List (List Char × Bytes)),
      zip.openExtract bytes = .fail written →
      ∀ nm d, (nm, d) ∈ written →
        osJoin (dirname (osJoin target_dir (basename url))) nm ≠ token_file) :
    (∀ (e : PyErr × FS),
      url_fetch_and_validate net lib url (osJoin target_dir (basename url)) fs
          = .error e →
      download_validate_and_unzip net lib zip now url target_dir token_file fs
          = .error e) ∧
    (∀ (e : PyErr) (fsE : FS),
      download_validate_and_unzip net lib zip now url target_dir token_file fs
          = .error (e, fsE) →
      fsE token_file = none) := by
  constructor
  · intro e hfv
    simp only [download_validate_and_unzip, hfv]
  · intro e fsE h
    cases hr : url_fetch_and_validate net lib url
        (osJoin target_dir (basename url)) fs with
    | error pe =>
      simp only [download_validate_and_unzip, hr, Except.error.injEq] at h
      subst h
      rcases url_fetch_and_validate_error_state net lib url _ fs e fsE hr
        with h1 | ⟨body, h1⟩
      · rw [h1]
        exact h0
      · rw [h1, fsWrite_ne fs _ token_file body (Ne.symm hne)]
        exact h0
    | ok fs1 =>
      obtain ⟨body, hnb, rfl⟩ :=
        url_fetch_and_validate_ok_state net lib url _ fs fs1 hr
      simp only [download_validate_and_unzip, hr, fsWrite_self] at h
      cases hz : zip.openExtract body with
      | ok entries =>
        simp only [hz] at h
        exact Except.noConfusion h
      | fail written =>
        simp only [hz, Except.error.injEq, Prod.mk.injEq] at h
        rw [← h.2,
          writeEntries_untouched _ written _ token_file (hzip body written hz),
          fsWrite_ne fs _ token_file body (Ne.symm hne)]
        exact h0

/-- C3 witness with the fixture collaborators and an empty starting
filesystem. -/
theorem C3_token_write_is_last_witness :
    ((fun _ => none : FS) ("t.COMPLETE".data) = none) ∧
    osJoin ("d".data) (basename ("http://h/a.zip".data)) ≠ ("t.COMPLETE".data) ∧
    (∀ (bytes : Bytes) (written : List (List Char × Bytes)),
      testZip.openExtract bytes = .fail written →
      ∀ nm d, (nm, d) ∈ written →
        osJoin (dirname (osJoin ("d".data) (basename ("http://h/a.zip".data)))) nm
          ≠ ("t.COMPLETE".data)) ∧
    ((∀ (e : PyErr × FS),
      url_fetch_and_validate testNet testHashLib ("http://h/a.zip".data)
          (osJoin ("d".data) (basename ("http://h/a.zip".data))) (fun _ => none)
          = .error e →
      download_validate_and_unzip testNet testHashLib testZip [9]
          ("http://h/a.zip".data) ("d".data) ("t.COMPLETE".data) (fun _ => none)
          = .error e) ∧
    (∀ (e : PyErr) (fsE : FS),
      download_validate_and_unzip testNet testHashLib testZip [9]
          ("http://h/a.zip".data) ("d".data) ("t.COMPLETE".data) (fun _ => none)
          = .error (e, fsE) →
      fsE ("t.COMPLETE".data) = none)) :=
  ⟨rfl, by decide, fun bytes written hw => ZipOutcome.noConfusion hw,
    C3_token_write_is_last testNet testHashLib testZip [9]
      ("http://h/a.zip".data) ("d".data) ("t.COMPLETE".data) (fun _ => none)
      rfl (by decide) (fun bytes written hw => ZipOutcome.noConfusion hw)⟩
